import Mathlib

/-!
Verification development for the HGH resident scheduler (`app.py`).

The Lean definitions below are a shallow embedding of the scheduler's core:
the per-day capacity derivation (`deriveDay`), the preference classification
of the model builder (`classifyPref`), the soft-objective penalty terms
(`prefMiss`, `prefPenalty`), the result projector's satisfaction predicate
(`satKind`), the hard constraints the CP model imposes (`SatisfiesHard`),
the pre-solve validator (`validateA`), the solver-adapter parameter logic
(`solverParams`, `statusMap`) and the run driver (`runBtnDriver`).
Theorems at the end of the file settle the specification's claims against
these definitions.
-/

namespace HGH

/-- Staff role tier: the junior tier `J1` is ineligible for ICU. -/
inductive Grade
  | J1
  | J2
deriving DecidableEq, Repr, Inhabited

/-- The shift kinds of the scheduler, in the order of the source's `SHIFTS` list. -/
inductive Shift
  | ER_Early
  | ER_Day1
  | ER_Day2
  | ER_Day3
  | ER_Late
  | ICU
  | VAC
deriving DecidableEq, Repr, Inhabited

/-- The source's `SHIFTS` list, in order. -/
def SHIFTS : List Shift :=
  [Shift.ER_Early, Shift.ER_Day1, Shift.ER_Day2, Shift.ER_Day3, Shift.ER_Late,
   Shift.ICU, Shift.VAC]

/-- One staff roster row (`name`, `grade`); the ICU ratio field plays no role in
the claims settled here and is omitted. -/
structure StaffMember where
  name : String
  grade : Grade
deriving DecidableEq, Repr, Inhabited

/-- One calendar day of the period: an identifying date ordinal, the weekday
(0 = Monday .. 6 = Sunday, as Python's `weekday()`), whether the day is in the
holiday list, whether it is a closed day, and the optional special override
(`special_map`) naming one base shift to suppress. -/
structure DayInput where
  date : Nat
  weekday : Nat
  holiday : Bool
  closed : Bool
  drop : Option String
deriving DecidableEq, Repr, Inhabited

/-- The derived per-day capacity record `DAY[d]` of `build_and_solve`. -/
structure DayInfo where
  reqEarly : Nat
  reqDay1 : Nat
  reqLate : Nat
  allowD2 : Bool
  allowD3 : Bool
  allowICU : Bool
deriving DecidableEq, Repr, Inhabited

/-- One preference request record (`date`, `name`, `kind`, `priority`).
The `kind` and `priority` strings are taken in the normal form the source
establishes before every use (kind lower-cased, priority upper-cased: the
preference editor saves them normalized and `build_and_solve` re-normalizes
into `prefs_eff`), so the embedding compares them directly. -/
structure PrefReq where
  date : Nat
  name : String
  kind : String
  priority : String
deriving DecidableEq, Repr, Inhabited

/-- One pinned assignment record (`date`, `name`, `shift`). -/
structure Pin where
  date : Nat
  name : String
  shift : String
deriving DecidableEq, Repr, Inhabited

/-- The immutable inputs of one solve attempt: calendar days, staff roster,
preference requests, pinned assignments, and the numeric configuration. -/
structure Inputs where
  days : List DayInput
  staff : List StaffMember
  prefs : List PrefReq
  pins : List Pin
  perPersonTotal : Nat
  maxConsecutive : Nat
  allowDay3 : Bool
  allowWeekendICU : Bool
  maxWeekendICUTotal : Nat
  maxWeekendICUPerPerson : Nat
deriving Repr, Inhabited

/-- Derivation of the `DAY[d]` capacity record in `build_and_solve`:
each base slot is required once unless the special override drops it;
Day2 is allowed on weekdays outside `DAY2_FORBID` (weekend, holiday, closed);
Day3 additionally needs the global `allow_day3`; ICU is allowed on every day
when `allow_weekend_icu` is set and on weekdays otherwise. -/
def deriveDay (allowDay3 allowWeekendICU : Bool) (di : DayInput) : DayInfo :=
  let d2ok : Bool :=
    decide (di.weekday < 5) && !(decide (5 ≤ di.weekday) || di.holiday || di.closed)
  { reqEarly := if di.drop = some "ER_Early" then 0 else 1
    reqDay1 := if di.drop = some "ER_Day1" then 0 else 1
    reqLate := if di.drop = some "ER_Late" then 0 else 1
    allowD2 := d2ok
    allowD3 := d2ok && allowDay3
    allowICU := allowWeekendICU || decide (di.weekday < 5) }

/-- The capacity record of day index `d` for the given inputs. -/
def dayInfo (inp : Inputs) (d : Nat) : DayInfo :=
  deriveDay inp.allowDay3 inp.allowWeekendICU (inp.days.getD d default)

/-- An assignment valuation: `x d s i = true` means staff `i` holds shift
kind `s` on day index `d` (the CP model's boolean `x[(d, s, i)]`). -/
def Asg : Type := Nat → Shift → Nat → Bool

/-- `sum(x[(d, s, i)] for s in range(len(SHIFTS)))`: how many kinds staff `i`
holds on day `d` (the model's `assigned_any` / `y[d]` sum). -/
def shiftSum (x : Asg) (d i : Nat) : Nat :=
  (SHIFTS.map (fun s => (x d s i).toNat)).sum

/-- `sum(x[(d, s, i)] for i in range(N))`: how many staff hold kind `s` on day `d`. -/
def dayKindCount (x : Asg) (N d : Nat) (s : Shift) : Nat :=
  ((List.range N).map (fun i => (x d s i).toNat)).sum

/-- Staff `i`'s total assignment count across the whole period
(the model's `total_i` variable). -/
def staffTotal (x : Asg) (D i : Nat) : Nat :=
  ((List.range D).map (fun d => shiftSum x d i)).sum

/-- The sum of any-kind-assigned indicators over the window of `w` days
starting at `start` (the consecutive-workday constraint's window sum). -/
def windowSum (x : Asg) (i start w : Nat) : Nat :=
  ((List.range w).map (fun k => shiftSum x (start + k) i)).sum

/-- The day indices of `Hd`: weekend or holiday days. -/
def holDays (inp : Inputs) : List Nat :=
  (List.range inp.days.length).filter
    (fun d => 5 ≤ (inp.days.getD d default).weekday || (inp.days.getD d default).holiday)

/-- Staff `i`'s weekend/holiday assignment total (the model's `hol_i` variable). -/
def holCount (inp : Inputs) (x : Asg) (i : Nat) : Nat :=
  ((holDays inp).map (fun d => shiftSum x d i)).sum

/-- The day indices whose weekday is Saturday or Sunday (the weekend-ICU cap's
`weekend_days`; holidays on weekdays are not included, as in the source). -/
def weekendDays (inp : Inputs) : List Nat :=
  (List.range inp.days.length).filter (fun d => 5 ≤ (inp.days.getD d default).weekday)

/-- Staff `i`'s early-shift count (the `early_i` variable). -/
def earlyCount (x : Asg) (D i : Nat) : Nat :=
  ((List.range D).map (fun d => (x d Shift.ER_Early i).toNat)).sum

/-- Staff `i`'s late-shift count (the `late_i` variable). -/
def lateCount (x : Asg) (D i : Nat) : Nat :=
  ((List.range D).map (fun d => (x d Shift.ER_Late i).toNat)).sum

/-- Staff `i`'s combined Day1+Day2 count (the `day12_i` variable). -/
def day12Count (x : Asg) (D i : Nat) : Nat :=
  ((List.range D).map (fun d => (x d Shift.ER_Day1 i).toNat + (x d Shift.ER_Day2 i).toNat)).sum

/-- `all_days.index(date)` guarded by membership: the day index of a raw date. -/
def dateIdx? (inp : Inputs) (dte : Nat) : Option Nat :=
  inp.days.findIdx? (fun di => di.date = dte)

/-- `name_to_idx.get(name)`: the staff index of a name. -/
def nameIdx? (inp : Inputs) (nm : String) : Option Nat :=
  inp.staff.findIdx? (fun s => s.name = nm)

/-- The grade of staff index `i`. -/
def gradeOf (inp : Inputs) (i : Nat) : Grade :=
  (inp.staff.getD i default).grade

/-- `J1_idx`: indices of junior-tier staff. -/
def J1idx (inp : Inputs) : List Nat :=
  (List.range inp.staff.length).filter (fun i => gradeOf inp i = Grade.J1)

/-- `J2_idx`: indices of senior-tier staff. -/
def J2idx (inp : Inputs) : List Nat :=
  (List.range inp.staff.length).filter (fun i => gradeOf inp i = Grade.J2)

/-- The `allow_vac` set: `(d, i)` pairs with some vacation request of priority
A, B or C with a valid date and name. -/
def allowVac (inp : Inputs) (d i : Nat) : Bool :=
  inp.prefs.any (fun p =>
    p.kind = "vacation" &&
    (p.priority = "A" || p.priority = "B" || p.priority = "C") &&
    dateIdx? inp p.date = some d && nameIdx? inp p.name = some i)

/-- Membership test of a shift-name string in `SHIFTS`, returning the kind. -/
def shiftOfString? (s : String) : Option Shift :=
  if s = "ER_Early" then some Shift.ER_Early
  else if s = "ER_Day1" then some Shift.ER_Day1
  else if s = "ER_Day2" then some Shift.ER_Day2
  else if s = "ER_Day3" then some Shift.ER_Day3
  else if s = "ER_Late" then some Shift.ER_Late
  else if s = "ICU" then some Shift.ICU
  else if s = "VAC" then some Shift.VAC
  else none

/-- The model builder's handling of one `pins` row: resolve the date, the
shift name and the staff name in that order, skipping the row (returning
`none`) as soon as one lookup fails, exactly as the `continue`s in the source. -/
def pinTriple? (inp : Inputs) (p : Pin) : Option (Nat × Shift × Nat) :=
  match dateIdx? inp p.date with
  | none => none
  | some d =>
    match shiftOfString? p.shift with
    | none => none
    | some s =>
      match nameIdx? inp p.name with
      | none => none
      | some i => some (d, s, i)

/-- The list of pin constraints the builder adds: one forced variable per
resolvable pin row. -/
def pinTriples (inp : Inputs) : List (Nat × Shift × Nat) :=
  inp.pins.filterMap (pinTriple? inp)

/-- How the model builder treats one preference record. -/
inductive PrefClass
  | hardOff
  | force (s : Shift)
  | soft (kind pr : String)
deriving DecidableEq, Repr

/-- The classification branch of `build_and_solve`'s preference loop, for a
record with normalized `kind` and `priority` on a day with capacity record
`day`: A-`day`/A-`icu` are first demoted to B; remaining A records become hard
constraints when the day's capacity admits the kind, and are downgraded to
tier-B soft records otherwise; non-A records stay soft. -/
def classifyPref (day : DayInfo) (kind pr : String) : PrefClass :=
  let pr := if pr = "A" && (kind = "day" || kind = "icu") then "B" else pr
  if pr = "A" then
    if kind = "off" then PrefClass.hardOff
    else if kind = "early" then
      (if day.reqEarly = 1 then PrefClass.force Shift.ER_Early else PrefClass.soft "early" "B")
    else if kind = "late" then
      (if day.reqLate = 1 then PrefClass.force Shift.ER_Late else PrefClass.soft "late" "B")
    else if kind = "day1" then
      (if day.reqDay1 = 1 then PrefClass.force Shift.ER_Day1 else PrefClass.soft "day1" "B")
    else if kind = "day2" then
      (if day.allowD2 then PrefClass.force Shift.ER_Day2 else PrefClass.soft "day2" "B")
    else if kind = "vacation" then PrefClass.force Shift.VAC
    else PrefClass.soft kind "B"
  else PrefClass.soft kind pr

/-- `any`-assigned indicator over the day's shift kinds for one staff member. -/
def anyOf (asg : Shift → Bool) : Bool :=
  SHIFTS.any (fun s => asg s)

/-- The soft-objective term the builder creates for one soft preference record:
`some m` when a penalty term with miss indicator `m` is added to the
objective, `none` when the record's guard fails and no term is created.
`asg` gives the record's staff member's assignment on the record's day and
`isJ2` whether that staff member is senior tier. -/
def prefMiss (day : DayInfo) (isJ2 : Bool) (asg : Shift → Bool) (kind : String) :
    Option Bool :=
  if kind = "off" then some (anyOf asg)
  else if kind = "early" then
    (if day.reqEarly = 1 then some (!(asg Shift.ER_Early)) else none)
  else if kind = "late" then
    (if day.reqLate = 1 then some (!(asg Shift.ER_Late)) else none)
  else if kind = "day1" then
    (if day.reqDay1 = 1 then some (!(asg Shift.ER_Day1)) else none)
  else if kind = "day2" then
    (if day.allowD2 then some (!(asg Shift.ER_Day2)) else none)
  else if kind = "day" then
    (if day.reqDay1 = 1 ∨ day.allowD2 = true then
      some (!((decide (day.reqDay1 = 1) && asg Shift.ER_Day1) ||
              (day.allowD2 && asg Shift.ER_Day2)))
    else none)
  else if kind = "icu" then
    (if isJ2 && day.allowICU then some (!(asg Shift.ICU)) else none)
  else if kind = "vacation" then some (!(asg Shift.VAC))
  else none

/-- The objective-value contribution of one soft preference record with scaled
weight `w` (the source's `int(100 * w)`), under the given assignment: `w` when
a miss term exists and fires, `0` otherwise. -/
def prefPenalty (w : Nat) (day : DayInfo) (isJ2 : Bool) (asg : Shift → Bool)
    (kind : String) : Nat :=
  match prefMiss day isJ2 asg kind with
  | some m => if m then w else 0
  | none => 0

/-- The result projector's `_sat` predicate: whether the record's B/C wish is
counted as met by the solved assignment. -/
def satKind (day : DayInfo) (isJ2 : Bool) (asg : Shift → Bool) (kind : String) :
    Bool :=
  if kind = "off" then !(anyOf asg)
  else if kind = "early" then decide (day.reqEarly = 1) && asg Shift.ER_Early
  else if kind = "day1" ∨ kind = "day_1" ∨ kind = "d1" then
    decide (day.reqDay1 = 1) && asg Shift.ER_Day1
  else if kind = "day2" ∨ kind = "day_2" ∨ kind = "d2" then
    day.allowD2 && asg Shift.ER_Day2
  else if kind = "day" then
    (decide (day.reqDay1 = 1) && asg Shift.ER_Day1) ||
    (day.allowD2 && asg Shift.ER_Day2)
  else if kind = "late" then decide (day.reqLate = 1) && asg Shift.ER_Late
  else if kind = "icu" then isJ2 && day.allowICU && asg Shift.ICU
  else if kind = "vacation" then asg Shift.VAC
  else false

/-- Whether the day's capacity record disables the (concrete-slot) kind, the
condition under which the builder downgrades an Absolute request of that kind. -/
def dayDisablesKind (day : DayInfo) (kind : String) : Bool :=
  (kind = "early" && decide (day.reqEarly = 0)) ||
  (kind = "late" && decide (day.reqLate = 0)) ||
  (kind = "day1" && decide (day.reqDay1 = 0)) ||
  (kind = "day2" && !day.allowD2)

/-- The hard constraint the builder adds for one preference record, as a
boolean check of the assignment: only records whose date and name resolve and
whose classification is hard constrain the model. -/
def aConstraintHolds (inp : Inputs) (x : Asg) (p : PrefReq) : Bool :=
  match dateIdx? inp p.date, nameIdx? inp p.name with
  | some d, some i =>
    match classifyPref (dayInfo inp d) p.kind p.priority with
    | PrefClass.hardOff => decide (shiftSum x d i = 0)
    | PrefClass.force s => x d s i
    | PrefClass.soft _ _ => true
  | _, _ => true

/-- All hard constraints `build_and_solve` imposes on the assignment variables,
for one attempt with fairness slack `fairSlack`. -/
structure SatisfiesHard (inp : Inputs) (fairSlack : Nat) (x : Asg) : Prop where
  oneShift : ∀ d < inp.days.length, ∀ i < inp.staff.length, shiftSum x d i ≤ 1
  j1NoICU : ∀ d < inp.days.length, ∀ i < inp.staff.length,
    gradeOf inp i = Grade.J1 → x d Shift.ICU i = false
  maxConsec : ∀ i < inp.staff.length, ∀ start < inp.days.length,
    start + (inp.maxConsecutive + 1) ≤ inp.days.length →
    windowSum x i start (inp.maxConsecutive + 1) ≤ inp.maxConsecutive
  totalEq : ∀ i < inp.staff.length, staffTotal x inp.days.length i = inp.perPersonTotal
  baseEarly : ∀ d < inp.days.length,
    dayKindCount x inp.staff.length d Shift.ER_Early = (dayInfo inp d).reqEarly
  baseDay1 : ∀ d < inp.days.length,
    dayKindCount x inp.staff.length d Shift.ER_Day1 = (dayInfo inp d).reqDay1
  baseLate : ∀ d < inp.days.length,
    dayKindCount x inp.staff.length d Shift.ER_Late = (dayInfo inp d).reqLate
  capD2 : ∀ d < inp.days.length,
    dayKindCount x inp.staff.length d Shift.ER_Day2 ≤
      (if (dayInfo inp d).allowD2 then 1 else 0)
  capD3 : ∀ d < inp.days.length,
    dayKindCount x inp.staff.length d Shift.ER_Day3 ≤
      (if (dayInfo inp d).allowD3 then 1 else 0)
  capICU : ∀ d < inp.days.length,
    dayKindCount x inp.staff.length d Shift.ICU ≤
      (if (dayInfo inp d).allowICU then 1 else 0)
  anchorD2 : ∀ d < inp.days.length,
    dayKindCount x inp.staff.length d Shift.ER_Day2 ≤
      dayKindCount x inp.staff.length d Shift.ER_Day1
  anchorD3 : ∀ d < inp.days.length,
    dayKindCount x inp.staff.length d Shift.ER_Day3 ≤
      dayKindCount x inp.staff.length d Shift.ER_Day1
  wkndICUTotal : inp.allowWeekendICU = true →
    ((weekendDays inp).map (fun d => dayKindCount x inp.staff.length d Shift.ICU)).sum ≤
      inp.maxWeekendICUTotal
  wkndICUPerPerson : inp.allowWeekendICU = true → ∀ i < inp.staff.length,
    ((weekendDays inp).map (fun d => (x d Shift.ICU i).toNat)).sum ≤
      inp.maxWeekendICUPerPerson
  pinned : ∀ t ∈ pinTriples inp, x t.1 t.2.1 t.2.2 = true
  vacOptIn : ∀ d < inp.days.length, ∀ i < inp.staff.length,
    allowVac inp d i = false → x d Shift.VAC i = false
  aHard : ∀ p ∈ inp.prefs, aConstraintHolds inp x p = true
  fairJ1 : ∀ a ∈ J1idx inp, ∀ b ∈ J1idx inp, a < b →
    holCount inp x a ≤ holCount inp x b + fairSlack ∧
    holCount inp x b ≤ holCount inp x a + fairSlack
  j1Dominates : J1idx inp ≠ [] → J2idx inp ≠ [] →
    ∃ M ∈ Finset.range (5 * inp.days.length + 1),
      (∀ a ∈ J1idx inp, holCount inp x a ≤ M) ∧
      (∀ j ∈ J2idx inp, holCount inp x j ≤ M)
  fairEarly : ∀ a ∈ J1idx inp, ∀ b ∈ J1idx inp, a < b →
    earlyCount x inp.days.length a ≤ earlyCount x inp.days.length b + 2 ∧
    earlyCount x inp.days.length b ≤ earlyCount x inp.days.length a + 2
  fairLate : ∀ a ∈ J1idx inp, ∀ b ∈ J1idx inp, a < b →
    lateCount x inp.days.length a ≤ lateCount x inp.days.length b + 2 ∧
    lateCount x inp.days.length b ≤ lateCount x inp.days.length a + 2
  fairDay12 : ∀ a ∈ J1idx inp, ∀ b ∈ J1idx inp, a < b →
    day12Count x inp.days.length a ≤ day12Count x inp.days.length b + 2 ∧
    day12Count x inp.days.length b ≤ day12Count x inp.days.length a + 2

/-- The itemized violations reported by `validate_A_requests`. -/
inductive AViolation
  | offConflict (date : Nat) (name kind : String)
  | offVacConflict (date : Nat) (name : String)
  | j1ICU (date : Nat) (name : String)
  | dayDisabled (date : Nat) (name kind : String)
  | slotOverflow (shiftName : String) (dIdx : Nat) (cnt : Nat)
deriving DecidableEq, Repr

/-- The pre-solve validator `validate_A_requests`: collects, in pass order,
(1) Absolute off-requests clashing with another Absolute request of the same
day and staff (with a second, vacation-specific entry when the other request
is a vacation), (2) Absolute ICU requests by junior-tier staff (the source
checks the name only, not the date), (3) Absolute requests for a kind the
day's capacity record disables, and (4) concrete capacity-1 slots targeted by
more than one Absolute request (the source checks the date only here). -/
def validateA (inp : Inputs) : List AViolation :=
  let aRows := inp.prefs.filter (fun p => p.priority = "A")
  let aOff : List (Nat × String) :=
    (aRows.filter (fun p =>
      p.kind = "off" && (dateIdx? inp p.date).isSome &&
      (nameIdx? inp p.name).isSome)).map (fun p => (p.date, p.name))
  let j1names : List String :=
    (inp.staff.filter (fun s => s.grade = Grade.J1)).map (fun s => s.name)
  let pass1 := aRows.flatMap (fun p =>
    if (dateIdx? inp p.date).isNone || (nameIdx? inp p.name).isNone then []
    else
      (if aOff.any (fun q => q = (p.date, p.name)) && !(p.kind = "off") then
        [AViolation.offConflict p.date p.name p.kind] else []) ++
      (if aOff.any (fun q => q = (p.date, p.name)) && p.kind = "vacation" then
        [AViolation.offVacConflict p.date p.name] else []))
  let pass2 := aRows.flatMap (fun p =>
    if p.kind = "icu" && j1names.any (fun nm => nm = p.name) then
      [AViolation.j1ICU p.date p.name] else [])
  let pass3 := aRows.flatMap (fun p =>
    match dateIdx? inp p.date with
    | none => []
    | some d =>
      if (nameIdx? inp p.name).isNone then []
      else
        let day := dayInfo inp d
        let k := p.kind
        (if k = "early" && decide (day.reqEarly = 0) then
          [AViolation.dayDisabled p.date p.name k] else []) ++
        (if k = "late" && decide (day.reqLate = 0) then
          [AViolation.dayDisabled p.date p.name k] else []) ++
        (if k = "day1" && decide (day.reqDay1 = 0) then
          [AViolation.dayDisabled p.date p.name k] else []) ++
        (if k = "day2" && !day.allowD2 then
          [AViolation.dayDisabled p.date p.name k] else []) ++
        (if k = "icu" && !day.allowICU then
          [AViolation.dayDisabled p.date p.name k] else []))
  let keyed : List (String × Nat) := aRows.flatMap (fun p =>
    match dateIdx? inp p.date with
    | none => []
    | some d =>
      let day := dayInfo inp d
      let k := p.kind
      if k = "early" && decide (day.reqEarly = 1) then [("ER_Early", d)]
      else if k = "late" && decide (day.reqLate = 1) then [("ER_Late", d)]
      else if k = "day1" && decide (day.reqDay1 = 1) then [("ER_Day1", d)]
      else if k = "day2" && day.allowD2 then [("ER_Day2", d)]
      else if k = "icu" && day.allowICU then [("ICU", d)]
      else [])
  let pass4 := keyed.dedup.flatMap (fun key =>
    let c := keyed.count key
    if 1 < c then [AViolation.slotOverflow key.1 key.2 c] else [])
  pass1 ++ pass2 ++ pass3 ++ pass4

/-- The parameters of one `build_and_solve` attempt. -/
structure AttemptParams where
  fairSlack : Nat
  weakenDay2Bonus : Bool
  disabledPrefIds : List Nat
deriving DecidableEq, Repr

/-- The run driver behind the generate button: it performs exactly one
`build_and_solve` attempt — fairness slack from the star setting, the
optional-placement bonus at full strength, no disabled soft records — and
returns the normalized status together with the list of attempts made.
On a non-feasible status the driver shows an error and stops; it never
re-invokes the builder. `solve` abstracts `build_and_solve`'s verdict. -/
def runBtnDriver (solve : Inputs → AttemptParams → String) (inp : Inputs)
    (fairSlack : Nat) : String × List AttemptParams :=
  let p : AttemptParams := ⟨fairSlack, false, []⟩
  let status := solve inp p
  (status, [p])

/-- Whether the driver proceeds to result projection (`status in
("OPTIMAL", "FEASIBLE")`); otherwise it stops with an error. -/
def runSucceeds (status : String) : Bool :=
  status = "OPTIMAL" || status = "FEASIBLE"

/-- The CP solver parameters the adapter sets. -/
structure SolverParams where
  maxTimeSeconds : Nat
  numSearchWorkers : Nat
  randomSeed : Option Int
deriving DecidableEq, Repr

/-- The solver-adapter parameter logic of `build_and_solve`: 20-second budget;
one search worker and the supplied seed when both the reproducibility flag and
the attempt's `repro_fix` are set, eight workers and no seed request otherwise
(a missing seed value is swallowed by the source's `try`/`except`). -/
def solverParams (fixRepro reproFix : Bool) (seedVal : Option Int) : SolverParams :=
  { maxTimeSeconds := 20
    numSearchWorkers := if fixRepro && reproFix then 1 else 8
    randomSeed := if fixRepro && reproFix then seedVal else none }

/-- One full pipeline run, with the external CP solver modelled as a function
`ext` of the solver parameters, the inputs (the model is built from them
deterministically) and an opaque environment (thread interleaving etc.). -/
def runSolveEnv {Outcome : Type} (ext : SolverParams → Inputs → Nat → Outcome)
    (fixRepro reproFix : Bool) (seedVal : Option Int) (inp : Inputs) (env : Nat) :
    Outcome :=
  ext (solverParams fixRepro reproFix seedVal) inp env

/-- The raw verdicts of the underlying CP-SAT solver. -/
inductive RawStatus
  | optimal
  | feasible
  | infeasible
  | modelInvalid
  | unknown
deriving DecidableEq, Repr

/-- The adapter's `status_map` normalization (with the dictionary's `get`
default of `"UNKNOWN"` folded in; every raw verdict is a key). -/
def statusMap : RawStatus → String
  | RawStatus.optimal => "OPTIMAL"
  | RawStatus.feasible => "FEASIBLE"
  | RawStatus.infeasible => "INFEASIBLE"
  | RawStatus.modelInvalid => "MODEL_INVALID"
  | RawStatus.unknown => "UNKNOWN"

/-- Replace a granted-leave assignment at `(d, VAC, i)` by an early-shift
assignment at `(d, ER_Early, i)`, leaving every other variable unchanged. -/
def swapVacToEarly (x : Asg) (d i : Nat) : Asg :=
  fun dd s ii =>
    if dd = d ∧ ii = i then
      match s with
      | Shift.VAC => false
      | Shift.ER_Early => true
      | _ => x dd s ii
    else x dd s ii

/-- A minimal feasible test instance: one open Monday, three junior staff,
each with a per-person total target of one, no requests and no pins. -/
def inp0 : Inputs :=
  { days := [⟨1, 0, false, false, none⟩]
    staff := [⟨"a", Grade.J1⟩, ⟨"b", Grade.J1⟩, ⟨"c", Grade.J1⟩]
    prefs := []
    pins := []
    perPersonTotal := 1
    maxConsecutive := 5
    allowDay3 := false
    allowWeekendICU := false
    maxWeekendICUTotal := 0
    maxWeekendICUPerPerson := 0 }

/-- A roster for `inp0` assigning the three base slots of its single day to
staff 0, 1 and 2. -/
def x0 : Asg := fun d s i =>
  decide (d = 0) &&
    ((decide (s = Shift.ER_Early) && decide (i = 0)) ||
     (decide (s = Shift.ER_Day1) && decide (i = 1)) ||
     (decide (s = Shift.ER_Late) && decide (i = 2)))

/-- An instance holding a contradictory Absolute pair: an A-off and an A-early
request for the same day and the same staff member. -/
def inpC2 : Inputs :=
  { days := [⟨1, 0, false, false, none⟩]
    staff := [⟨"a", Grade.J1⟩]
    prefs := [⟨1, "a", "off", "A"⟩, ⟨1, "a", "early", "A"⟩]
    pins := []
    perPersonTotal := 22
    maxConsecutive := 5
    allowDay3 := false
    allowWeekendICU := false
    maxWeekendICUTotal := 0
    maxWeekendICUPerPerson := 0 }

/-- The capacity record of a fully open Monday. -/
def dayW : DayInfo := deriveDay false false ⟨1, 0, false, false, none⟩

/-- The capacity record of a Monday whose early slot is suppressed by the
special override. -/
def dayCE : DayInfo := deriveDay false false ⟨1, 0, false, false, some "ER_Early"⟩

/-- The capacity record of a Saturday: Day2 is not allowed there. -/
def dayNoD2 : DayInfo := deriveDay false false ⟨2, 5, false, false, none⟩

/-- A day-assignment holding no shift at all. -/
def asgNone : Shift → Bool := fun _ => false

/-- A day-assignment holding exactly the early shift. -/
def asgE : Shift → Bool := fun s => decide (s = Shift.ER_Early)

/-- A roster whose only assignment is a granted leave for staff 0 on day 0. -/
def xV : Asg := fun d s i =>
  decide (d = 0) && decide (s = Shift.VAC) && decide (i = 0)

/-- A pin record whose date does not belong to `inp0`'s period. -/
def badPin : Pin := ⟨99, "a", "ER_Early"⟩

/-- The roster `x0` satisfies every hard constraint of the model built from
`inp0` at fairness slack 1. -/
theorem sat0 : SatisfiesHard inp0 1 x0 := by
  constructor <;> decide

/-- Claim C1: the run driver performs exactly one `build_and_solve` attempt,
with the star-derived fairness slack, the bonus at full strength and no
disabled soft records, and returns that attempt's verdict — regardless of the
verdict. In particular, after a non-feasible verdict no second attempt with a
widened fairness slack (the claimed State 1) is ever made: the driver stops. -/
theorem c1_single_attempt (solve : Inputs → AttemptParams → String) (inp : Inputs)
    (fairSlack : Nat) :
    (runBtnDriver solve inp fairSlack).2 = [⟨fairSlack, false, []⟩] ∧
    (runBtnDriver solve inp fairSlack).1 = solve inp ⟨fairSlack, false, []⟩ :=
  ⟨rfl, rfl⟩

/-- Claim C2: on an input with a contradictory Absolute pair (A-off plus
A-early for the same day and staff member), the validator — were it invoked —
returns an itemized violation, yet the run driver still performs a solve
attempt: nothing in the driver consults `validateA`, so the solver is invoked
on contradictory Absolute input instead of the pipeline halting first. -/
theorem c2_solver_reached_despite_violations :
    validateA inpC2 = [AViolation.offConflict 1 "a" "early"] ∧
    (runBtnDriver (fun _ _ => "INFEASIBLE") inpC2 1).2 = [⟨1, false, []⟩] :=
  ⟨by decide, rfl⟩

/-- Claim C3, counterexample: for a Strong-soft early request on a day whose
early slot is suppressed, the builder emits no penalty term (the record's
objective contribution is 0) while the projector's satisfaction predicate
reports the record unmet — so "satisfied exactly when the penalty is zero"
fails as stated. -/
theorem c3_counterexample :
    ¬ (satKind dayCE false asgNone "early" = true ↔
       prefPenalty 1000 dayCE false asgNone "early" = 0) := by decide

/-- Claim C3, amended: whenever the builder actually creates a penalty term
for a soft record (the kind/day/role guard holds, `prefMiss = some m`), the
projector's satisfaction predicate agrees with the optimized miss indicator:
the record is reported met exactly when the term's miss indicator is false. -/
theorem c3_amended (day : DayInfo) (isJ2 : Bool) (asg : Shift → Bool) (kind : String)
    (m : Bool) (h : prefMiss day isJ2 asg kind = some m) :
    satKind day isJ2 asg kind = !m := by
  unfold prefMiss at h
  split_ifs at h <;> injection h with hh <;> subst hh <;> simp_all [satKind]

/-- Witness for the amended C3 theorem at a concrete open day and a granted
early request. -/
theorem c3_amended_witness :
    prefMiss dayW false asgE "early" = some false ∧
    satKind dayW false asgE "early" = !false :=
  ⟨by decide, c3_amended dayW false asgE "early" false (by decide)⟩

/-- Claim C4, counterexample: an Absolute day2 request on a Saturday is
downgraded to a tier-B soft record, but the objective construction re-checks
the same availability guard and emits no penalty term for it — the downgraded
request does not "still produce a soft objective term". -/
theorem c4_counterexample :
    classifyPref dayNoD2 "day2" "A" = PrefClass.soft "day2" "B" ∧
    prefMiss dayNoD2 false asgNone "day2" = none ∧
    prefPenalty 1000 dayNoD2 false asgNone "day2" = 0 := by decide

/-- Claim C4, amended: an Absolute request whose concrete-slot kind the day's
capacity record disables, or an ICU request by a role-ineligible (junior)
staff member, is downgraded to a tier-B soft record before model construction
(it stays in the soft bookkeeping, it is not dropped there), but the
objective construction emits no penalty term for it. -/
theorem c4_amended (day : DayInfo) (kind : String) (isJ2 : Bool) (asg : Shift → Bool)
    (h : dayDisablesKind day kind = true ∨ (kind = "icu" ∧ isJ2 = false)) :
    classifyPref day kind "A" = PrefClass.soft kind "B" ∧
    prefMiss day isJ2 asg kind = none := by
  rcases h with h | ⟨hk, hj⟩
  · simp only [dayDisablesKind, Bool.or_eq_true, Bool.and_eq_true,
      decide_eq_true_eq] at h
    rcases h with ((⟨hk, hr⟩ | ⟨hk, hr⟩) | ⟨hk, hr⟩) | ⟨hk, hr⟩ <;> subst hk <;>
      constructor <;> simp_all [classifyPref, prefMiss]
  · subst hk; subst hj
    constructor <;> simp [classifyPref, prefMiss]

/-- Witness for the amended C4 theorem: an Absolute ICU request by a junior
staff member is downgraded to soft tier B and yields no objective term. -/
theorem c4_amended_witness :
    ("icu" = "icu" ∧ false = false) ∧
    (classifyPref dayW "icu" "A" = PrefClass.soft "icu" "B" ∧
     prefMiss dayW false asgNone "icu" = none) :=
  ⟨⟨rfl, rfl⟩, c4_amended dayW "icu" false asgNone (Or.inr ⟨rfl, rfl⟩)⟩

/-- Claim C5: in every assignment satisfying the model's hard constraints —
hence in every feasible or optimal solved outcome — each staff member's total
assignment count across the period equals the configured per-person target
exactly. -/
theorem c5_total_exact (inp : Inputs) (fairSlack : Nat) (x : Asg)
    (h : SatisfiesHard inp fairSlack x) :
    ∀ i < inp.staff.length, staffTotal x inp.days.length i = inp.perPersonTotal :=
  h.totalEq

/-- Witness for C5 on the concrete feasible instance `inp0` / `x0`. -/
theorem c5_witness :
    0 < inp0.staff.length ∧
    staffTotal x0 inp0.days.length 0 = inp0.perPersonTotal :=
  ⟨by decide, c5_total_exact inp0 1 x0 sat0 0 (by decide)⟩

/-- Claim C6: in every assignment satisfying the model's hard constraints,
each base kind's daily assigned count equals the day's capacity record
exactly (1, or 0 under the special override), and no optional kind (Day2,
Day3, ICU) is assigned on a day whose capacity record disables it. -/
theorem c6_daily_coverage (inp : Inputs) (fairSlack : Nat) (x : Asg)
    (h : SatisfiesHard inp fairSlack x) :
    ∀ d < inp.days.length,
      (dayKindCount x inp.staff.length d Shift.ER_Early = (dayInfo inp d).reqEarly ∧
       dayKindCount x inp.staff.length d Shift.ER_Day1 = (dayInfo inp d).reqDay1 ∧
       dayKindCount x inp.staff.length d Shift.ER_Late = (dayInfo inp d).reqLate) ∧
      ((dayInfo inp d).allowD2 = false →
        dayKindCount x inp.staff.length d Shift.ER_Day2 = 0) ∧
      ((dayInfo inp d).allowD3 = false →
        dayKindCount x inp.staff.length d Shift.ER_Day3 = 0) ∧
      ((dayInfo inp d).allowICU = false →
        dayKindCount x inp.staff.length d Shift.ICU = 0) := by
  intro d hd
  refine ⟨⟨h.baseEarly d hd, h.baseDay1 d hd, h.baseLate d hd⟩, ?_, ?_, ?_⟩
  · intro hf
    have hc := h.capD2 d hd
    simp [hf] at hc
    omega
  · intro hf
    have hc := h.capD3 d hd
    simp [hf] at hc
    omega
  · intro hf
    have hc := h.capICU d hd
    simp [hf] at hc
    omega

/-- Witness for C6 on the concrete feasible instance `inp0` / `x0` at day 0. -/
theorem c6_witness :
    (dayKindCount x0 inp0.staff.length 0 Shift.ER_Early = (dayInfo inp0 0).reqEarly ∧
     dayKindCount x0 inp0.staff.length 0 Shift.ER_Day1 = (dayInfo inp0 0).reqDay1 ∧
     dayKindCount x0 inp0.staff.length 0 Shift.ER_Late = (dayInfo inp0 0).reqLate) ∧
    ((dayInfo inp0 0).allowD2 = false →
      dayKindCount x0 inp0.staff.length 0 Shift.ER_Day2 = 0) ∧
    ((dayInfo inp0 0).allowD3 = false →
      dayKindCount x0 inp0.staff.length 0 Shift.ER_Day3 = 0) ∧
    ((dayInfo inp0 0).allowICU = false →
      dayKindCount x0 inp0.staff.length 0 Shift.ICU = 0) :=
  c6_daily_coverage inp0 1 x0 sat0 0 (by decide)

/-- Claim C7: with the reproducibility flag on, the adapter requests one
search worker and the supplied random seed, and — under the external solver's
contract that single-worker seeded search is independent of the scheduling
environment — two runs of the pipeline on identical inputs coincide; with the
flag off, eight workers are requested and no seed is set. -/
theorem c7_deterministic_seeded_run {Outcome : Type}
    (ext : SolverParams → Inputs → Nat → Outcome)
    (hdet : ∀ p inp e e', p.numSearchWorkers = 1 → (p.randomSeed).isSome = true →
      ext p inp e = ext p inp e')
    (fixRepro reproFix : Bool) (s : Int) (inp : Inputs) (e₁ e₂ : Nat) :
    (fixRepro = true → reproFix = true →
      (solverParams fixRepro reproFix (some s)).numSearchWorkers = 1 ∧
      (solverParams fixRepro reproFix (some s)).randomSeed = some s ∧
      runSolveEnv ext fixRepro reproFix (some s) inp e₁ =
        runSolveEnv ext fixRepro reproFix (some s) inp e₂) ∧
    ((fixRepro && reproFix) = false →
      (solverParams fixRepro reproFix (some s)).numSearchWorkers = 8 ∧
      (solverParams fixRepro reproFix (some s)).randomSeed = none) := by
  constructor
  · intro h1 h2
    subst h1; subst h2
    exact ⟨rfl, rfl, hdet _ _ _ _ rfl rfl⟩
  · intro hf
    simp [solverParams, hf]

/-- Witness for C7 with a concrete (constant, hence environment-independent)
external solver, flag on, seed 42 and two different environments. -/
theorem c7_witness :
    (solverParams true true (some 42)).numSearchWorkers = 1 ∧
    (solverParams true true (some 42)).randomSeed = some 42 ∧
    runSolveEnv (fun _ _ _ => (0 : Nat)) true true (some 42) inp0 0 =
      runSolveEnv (fun _ _ _ => (0 : Nat)) true true (some 42) inp0 1 :=
  (c7_deterministic_seeded_run (fun _ _ _ => (0 : Nat))
    (fun _ _ _ _ _ _ => rfl) true true 42 inp0 0 1).1 rfl rfl

/-- Claim C8, counterexample: the adapter's normalization maps the raw
`MODEL_INVALID` verdict to the string `"MODEL_INVALID"`, which is not among
the four values the claim allows. -/
theorem c8_counterexample :
    statusMap RawStatus.modelInvalid = "MODEL_INVALID" ∧
    "MODEL_INVALID" ∉ ["OPTIMAL", "FEASIBLE", "INFEASIBLE", "UNKNOWN"] :=
  ⟨rfl, by decide⟩

/-- Claim C8, amended: the normalized status is one of exactly the five
values `OPTIMAL`, `FEASIBLE`, `INFEASIBLE`, `MODEL_INVALID`, `UNKNOWN`. -/
theorem c8_amended (r : RawStatus) :
    statusMap r ∈ ["OPTIMAL", "FEASIBLE", "INFEASIBLE", "MODEL_INVALID", "UNKNOWN"] := by
  cases r <;> simp [statusMap]

/-- Claim C9: a granted leave (VAC) assignment is counted exactly like a work
assignment in every aggregate of the model: replacing a VAC assignment by an
early-shift assignment at the same day and staff member changes no per-day
any-kind indicator, no per-person total, no sliding-window sum, and no
weekend/holiday workload total used by the fairness constraints. -/
theorem c9_vac_counted (inp : Inputs) (x : Asg) (d i : Nat)
    (hv : x d Shift.VAC i = true) (he : x d Shift.ER_Early i = false) :
    (∀ dd ii, shiftSum (swapVacToEarly x d i) dd ii = shiftSum x dd ii) ∧
    (∀ D j, staffTotal (swapVacToEarly x d i) D j = staffTotal x D j) ∧
    (∀ j start w, windowSum (swapVacToEarly x d i) j start w = windowSum x j start w) ∧
    (∀ j, holCount inp (swapVacToEarly x d i) j = holCount inp x j) := by
  have key : ∀ dd ii, shiftSum (swapVacToEarly x d i) dd ii = shiftSum x dd ii := by
    intro dd ii
    by_cases hc : dd = d ∧ ii = i
    · obtain ⟨rfl, rfl⟩ := hc
      simp [shiftSum, SHIFTS, swapVacToEarly, hv, he]
      omega
    · have hx : ∀ s, swapVacToEarly x d i dd s ii = x dd s ii := by
        intro s
        simp [swapVacToEarly, hc]
      simp [shiftSum, hx]
  exact ⟨key, fun D j => by simp [staffTotal, key],
    fun j start w => by simp [windowSum, key],
    fun j => by simp [holCount, key]⟩

/-- Witness for C9: the roster `xV` grants a leave to staff 0 on day 0. -/
theorem c9_witness :
    xV 0 Shift.VAC 0 = true ∧ xV 0 Shift.ER_Early 0 = false ∧
    ((∀ dd ii, shiftSum (swapVacToEarly xV 0 0) dd ii = shiftSum xV dd ii) ∧
     (∀ D j, staffTotal (swapVacToEarly xV 0 0) D j = staffTotal xV D j) ∧
     (∀ j start w, windowSum (swapVacToEarly xV 0 0) j start w = windowSum xV j start w) ∧
     (∀ j, holCount inp0 (swapVacToEarly xV 0 0) j = holCount inp0 xV j)) :=
  ⟨rfl, rfl, c9_vac_counted inp0 xV 0 0 rfl rfl⟩

/-- Pins enter the model only through `pinTriples`: two pin lists producing
the same resolved triples yield the same hard-constraint predicate. -/
theorem satisfiesHard_pins_irrel (inp : Inputs) (l₁ l₂ : List Pin)
    (h : pinTriples {inp with pins := l₁} = pinTriples {inp with pins := l₂})
    (fairSlack : Nat) (x : Asg)
    (hs : SatisfiesHard {inp with pins := l₁} fairSlack x) :
    SatisfiesHard {inp with pins := l₂} fairSlack x :=
  { oneShift := hs.oneShift
    j1NoICU := hs.j1NoICU
    maxConsec := hs.maxConsec
    totalEq := hs.totalEq
    baseEarly := hs.baseEarly
    baseDay1 := hs.baseDay1
    baseLate := hs.baseLate
    capD2 := hs.capD2
    capD3 := hs.capD3
    capICU := hs.capICU
    anchorD2 := hs.anchorD2
    anchorD3 := hs.anchorD3
    wkndICUTotal := hs.wkndICUTotal
    wkndICUPerPerson := hs.wkndICUPerPerson
    pinned := fun t ht => hs.pinned t (by rw [h]; exact ht)
    vacOptIn := hs.vacOptIn
    aHard := hs.aHard
    fairJ1 := hs.fairJ1
    j1Dominates := hs.j1Dominates
    fairEarly := hs.fairEarly
    fairLate := hs.fairLate
    fairDay12 := hs.fairDay12 }

/-- Claim C10: a pin record whose date is outside the period, whose shift name
is unknown, or whose staff name is not on the roster contributes no constraint
(the builder's resolution skips it silently) and leaves the rest of the model
unchanged: the hard-constraint predicate with and without the record is the
same. -/
theorem c10_invalid_pin_skipped (inp : Inputs) (p : Pin) (rest : List Pin)
    (fairSlack : Nat) (x : Asg)
    (h : dateIdx? inp p.date = none ∨ shiftOfString? p.shift = none ∨
      nameIdx? inp p.name = none) :
    pinTriples {inp with pins := p :: rest} = pinTriples {inp with pins := rest} ∧
    (SatisfiesHard {inp with pins := p :: rest} fairSlack x ↔
     SatisfiesHard {inp with pins := rest} fairSlack x) := by
  have hnone : pinTriple? inp p = none := by
    unfold pinTriple?
    rcases h with h | h | h
    · simp [h]
    · cases hdd : dateIdx? inp p.date <;> simp [h]
    · cases hdd : dateIdx? inp p.date <;> cases hss : shiftOfString? p.shift <;> simp [h]
  have htr : pinTriples {inp with pins := p :: rest} = pinTriples {inp with pins := rest} := by
    show (p :: rest).filterMap (pinTriple? inp) = rest.filterMap (pinTriple? inp)
    rw [List.filterMap_cons_none]
    exact hnone
  exact ⟨htr, ⟨satisfiesHard_pins_irrel inp (p :: rest) rest htr fairSlack x,
    satisfiesHard_pins_irrel inp rest (p :: rest) htr.symm fairSlack x⟩⟩

/-- Witness for C10: adding the out-of-period pin `badPin` to `inp0` changes
neither the resolved pin triples nor the hard-constraint predicate. -/
theorem c10_witness :
    pinTriples {inp0 with pins := [badPin]} = pinTriples {inp0 with pins := ([] : List Pin)} ∧
    (SatisfiesHard {inp0 with pins := [badPin]} 1 x0 ↔
     SatisfiesHard {inp0 with pins := ([] : List Pin)} 1 x0) :=
  c10_invalid_pin_skipped inp0 badPin [] 1 x0 (Or.inl (by decide))

end HGH
